import Mathlib

/-!
Shallow embedding of the rsops monitoring pipeline: the alert evaluation
rules (src/alerting.rs), and the dispatch / orchestration loop of one tick
(src/main.rs).  Rust `f32` values are modelled as exact rationals extended
with the IEEE special values NaN and the two infinities; division,
multiplication and the strict-greater comparison follow the IEEE rules
(in particular x/0 is an infinity for x different from 0, 0/0 is NaN, and
NaN compares false with everything).  Machine integers (`u64`) are `Nat`.
The system clock read by `Utc::now()` is passed in explicitly as `now`.
-/

deriving instance DecidableEq for Except

/-- Model of a Rust `f32` value: NaN, an infinity (`inf true` is positive
infinity), or a finite value represented by an exact rational. -/
inductive RFloat where
  | nan : RFloat
  | inf : Bool → RFloat
  | fin : Rat → RFloat
deriving DecidableEq

/-- Exact rational multiplication, stated through `Rat.divInt` so that the
kernel can evaluate it on concrete inputs. -/
def qmul (a b : Rat) : Rat := Rat.divInt (a.num * b.num) ((a.den : Int) * (b.den : Int))

/-- Exact rational division through `Rat.divInt`. -/
def qdiv (a b : Rat) : Rat := Rat.divInt (a.num * (b.den : Int)) (b.num * (a.den : Int))

/-- Exact rational subtraction through `Rat.divInt`. -/
def qsub (a b : Rat) : Rat :=
  Rat.divInt (a.num * (b.den : Int) - b.num * (a.den : Int)) ((a.den : Int) * (b.den : Int))

/-- Conversion `u64 as f32` (rounding abstracted to exact). -/
def RFloat.ofNat (n : Nat) : RFloat := .fin (mkRat n 1)

/-- IEEE division on the model; the source only divides two values that
come from `as f32` casts of unsigned integers. -/
def RFloat.div : RFloat → RFloat → RFloat
  | .nan, _ => .nan
  | _, .nan => .nan
  | .inf _, .inf _ => .nan
  | .inf s, .fin b => if b < 0 then .inf (!s) else .inf s
  | .fin _, .inf _ => .fin 0
  | .fin a, .fin b =>
      if b = 0 then (if a = 0 then .nan else if a > 0 then .inf true else .inf false)
      else .fin (qdiv a b)

/-- IEEE multiplication on the model. -/
def RFloat.mul : RFloat → RFloat → RFloat
  | .nan, _ => .nan
  | _, .nan => .nan
  | .inf s, .inf t => .inf (s == t)
  | .inf s, .fin b => if b = 0 then .nan else if b > 0 then .inf s else .inf (!s)
  | .fin a, .inf s => if a = 0 then .nan else if a > 0 then .inf s else .inf (!s)
  | .fin a, .fin b => .fin (qmul a b)

/-- IEEE strict greater-than: NaN compares false with everything. -/
def RFloat.gt : RFloat → RFloat → Bool
  | .nan, _ => false
  | _, .nan => false
  | .inf true, .inf true => false
  | .inf true, _ => true
  | .inf false, _ => false
  | .fin _, .inf true => false
  | .fin _, .inf false => true
  | .fin a, .fin b => decide (a > b)

/-- Round half to even, as Rust float formatting does. -/
def rne (q : Rat) : Int :=
  let f := q.floor
  let r := qsub q (mkRat f 1)
  if r < mkRat 1 2 then f
  else if mkRat 1 2 < r then f + 1
  else if f % 2 = 0 then f else f + 1

/-- Rust formatting with one decimal digit, as in the `{:.1}` format
specifier used for the alert messages and details. -/
def RFloat.format1 : RFloat → String
  | .nan => "NaN"
  | .inf true => "inf"
  | .inf false => "-inf"
  | .fin q =>
      if q < 0 then
        let t := (rne (qmul q (mkRat (-10) 1))).toNat
        "-" ++ toString (t / 10) ++ "." ++ toString (t % 10)
      else
        let t := (rne (qmul q (mkRat 10 1))).toNat
        toString (t / 10) ++ "." ++ toString (t % 10)

/-- Severity levels of `alerting.rs`. -/
inductive AlertSeverity where
  | Info : AlertSeverity
  | Warning : AlertSeverity
  | Critical : AlertSeverity
deriving DecidableEq

/-- The `Alert` struct of `alerting.rs`; the timestamp is the `Nat` clock
value passed to the evaluation call. -/
structure Alert where
  timestamp : Nat
  severity : AlertSeverity
  source : String
  message : String
  details : String
deriving DecidableEq

/-- The `ResourceMetrics` struct of `resource_monitor.rs`. -/
structure ResourceMetrics where
  cpu_usage : RFloat
  memory_used : Nat
  memory_total : Nat
  disk_used : Nat
  disk_total : Nat
deriving DecidableEq

/-- The `ContainerStatus` struct of `container_monitor.rs`. -/
structure ContainerStatus where
  container_id : String
  name : String
  status : String
  running : Bool
  memory_usage : Option Nat
  cpu_usage : Option RFloat
deriving DecidableEq

/-- The `ResourceThreshold` struct of `alerting.rs`. -/
structure ResourceThreshold where
  cpu_threshold : RFloat
  memory_threshold : RFloat
  disk_threshold : RFloat
deriving DecidableEq

/-- The `AlertError` enum of `alerting.rs`. -/
inductive AlertError where
  | EvaluationError : String → AlertError
deriving DecidableEq

/-- The `ResourceError` enum of `resource_monitor.rs`. -/
inductive ResourceError where
  | MetricsCollectionError : String → ResourceError
deriving DecidableEq

/-- The `ContainerError` enum of `container_monitor.rs`. -/
inductive ContainerError where
  | ConnectionError : String → ContainerError
  | MonitoringError : String → ContainerError
deriving DecidableEq

/-- The `NotificationError` enum of `notification.rs`. -/
inductive NotificationError where
  | EmailError : String → NotificationError
  | SlackError : String → NotificationError
  | GeneralError : String → NotificationError
deriving DecidableEq

/-- The `Display` rendering of `NotificationError` given by its
`thiserror` annotations in `notification.rs`. -/
def NotificationError.display : NotificationError → String
  | .EmailError s => "Failed to send email: " ++ s
  | .SlackError s => "Failed to send Slack notification: " ++ s
  | .GeneralError s => "Failed to send notification: " ++ s

/-- The `ResourceAlertRule` struct of `alerting.rs`. -/
structure ResourceAlertRule where
  threshold : ResourceThreshold
  metrics : ResourceMetrics

/-- The `ContainerAlertRule` struct of `alerting.rs`. -/
structure ContainerAlertRule where
  container : ContainerStatus

/-- `memory_usage_percent` as computed on line 64 of `alerting.rs`:
`(memory_used as f32 / memory_total as f32) * 100.0`. -/
def memPercent (m : ResourceMetrics) : RFloat :=
  RFloat.mul (RFloat.div (RFloat.ofNat m.memory_used) (RFloat.ofNat m.memory_total)) (.fin 100)

/-- `disk_usage_percent` as computed on line 65 of `alerting.rs`:
`(disk_used as f32 / disk_total as f32) * 100.0`. -/
def diskPercent (m : ResourceMetrics) : RFloat :=
  RFloat.mul (RFloat.div (RFloat.ofNat m.disk_used) (RFloat.ofNat m.disk_total)) (.fin 100)

/-- `ResourceAlertRule::evaluate` of `alerting.rs` (lines 62 to 98):
checks CPU, then memory, then disk and returns the first exceeded
condition as a Warning alert, else `Ok(None)`. -/
def ResourceAlertRule.evaluate (r : ResourceAlertRule) (now : Nat) :
    Except AlertError (Option Alert) :=
  let cpu_usage_percent := r.metrics.cpu_usage
  let memory_usage_percent := memPercent r.metrics
  let disk_usage_percent := diskPercent r.metrics
  if RFloat.gt cpu_usage_percent r.threshold.cpu_threshold then
    .ok (some {
      timestamp := now
      severity := .Warning
      source := "CPU"
      message := "High CPU usage: " ++ RFloat.format1 cpu_usage_percent ++ "%"
      details := "Threshold: " ++ RFloat.format1 r.threshold.cpu_threshold ++ "%" })
  else if RFloat.gt memory_usage_percent r.threshold.memory_threshold then
    .ok (some {
      timestamp := now
      severity := .Warning
      source := "Memory"
      message := "High memory usage: " ++ RFloat.format1 memory_usage_percent ++ "%"
      details := "Threshold: " ++ RFloat.format1 r.threshold.memory_threshold ++ "%" })
  else if RFloat.gt disk_usage_percent r.threshold.disk_threshold then
    .ok (some {
      timestamp := now
      severity := .Warning
      source := "Disk"
      message := "High disk usage: " ++ RFloat.format1 disk_usage_percent ++ "%"
      details := "Threshold: " ++ RFloat.format1 r.threshold.disk_threshold ++ "%" })
  else
    .ok none

/-- `ContainerAlertRule::evaluate` of `alerting.rs` (lines 102 to 118):
a Critical alert when the container is not running, else `Ok(None)`. -/
def ContainerAlertRule.evaluate (r : ContainerAlertRule) (now : Nat) :
    Except AlertError (Option Alert) :=
  if !r.container.running then
    .ok (some {
      timestamp := now
      severity := .Critical
      source := "Container"
      message := "Container " ++ r.container.name ++ " is not running"
      details := "Container ID: " ++ r.container.container_id ++ ", Status: " ++ r.container.status })
  else
    .ok none

/-- A notification channel as the loop sees it: `send` applied to one
alert, returning `Ok(())` or a `NotificationError`.  Modelled as a pure
function since the claims only concern which channels are invoked and
how their failures are handled. -/
def Notifier := Alert → Except NotificationError Unit

/-- Observable events of one tick of the orchestration loop, used to
state which calls happen and in which order. -/
inductive Event where
  | metricsPolled : Event
  | resourceEvaluated : Event
  | containersPolled : Event
  | containerEvaluated : String → Event
  | sendAttempt : Nat → Alert → Event
  | logError : String → Event
deriving DecidableEq

/-- The fan-out loop of `main.rs` (`for notifier in notifiers`), carrying
the registration index of the next channel: each channel is invoked once,
and a failure is logged (`log::error`) and swallowed. -/
def dispatchAux (i : Nat) (ns : List Notifier) (alert : Alert) : List Event :=
  match ns with
  | [] => []
  | n :: rest =>
      Event.sendAttempt i alert ::
        ((match n alert with
          | .error e => [Event.logError ("Failed to send notification: " ++ e.display)]
          | .ok _ => []) ++ dispatchAux (i + 1) rest alert)

/-- Dispatch of one alert to every registered channel in registration
order (`main.rs`, lines 61 to 65 and 75 to 79). -/
def dispatchAlert (ns : List Notifier) (alert : Alert) : List Event :=
  dispatchAux 0 ns alert

/-- One tick of the orchestration loop of `main.rs` (lines 52 to 83).
The results of `collect_metrics` and `list_containers` are passed in as
values; each is consumed exactly once.  `if let Ok(metrics) = ...` skips
the resource branch on error; `if let Ok(Some(alert)) = rule.evaluate()`
dispatches only on a produced alert; the container branch runs
regardless of the resource branch. -/
def evalTick (threshold : ResourceThreshold) (notifiers : List Notifier)
    (metricsResult : Except ResourceError ResourceMetrics)
    (containersResult : Except ContainerError (List ContainerStatus))
    (now : Nat) : List Event :=
  Event.metricsPolled ::
  ((match metricsResult with
    | .ok metrics =>
        Event.resourceEvaluated ::
          (match (ResourceAlertRule.mk threshold metrics).evaluate now with
           | .ok (some alert) => dispatchAlert notifiers alert
           | _ => [])
    | .error _ => []) ++
   Event.containersPolled ::
   (match containersResult with
    | .ok containers =>
        containers.flatMap fun c =>
          Event.containerEvaluated c.container_id ::
            (match (ContainerAlertRule.mk c).evaluate now with
             | .ok (some alert) => dispatchAlert notifiers alert
             | _ => [])
    | .error _ => []))

/-- Erase the timestamp of an alert, for statements about determinism up
to the clock. -/
def stripTs (a : Alert) : Alert := { a with timestamp := 0 }

/-- The registration index carried by a send-attempt event, if any. -/
def sendIdx : Event → Option Nat
  | .sendAttempt i _ => some i
  | _ => none

/-- Registration indices of the send attempts occurring in a trace, in
trace order. -/
def sendIndices (tr : List Event) : List Nat :=
  tr.filterMap sendIdx

/-- Whether an evaluation result is an alert whose `source` field is
`src`; `false` both for `Ok(None)` and for errors. -/
def isAlertFrom (src : String) (r : Except AlertError (Option Alert)) : Bool :=
  match r with
  | .ok (some a) => a.source == src
  | _ => false

/-- Whether a model float is a finite value (not NaN, not an infinity). -/
def RFloat.isFinite : RFloat → Bool
  | .fin _ => true
  | _ => false

/-- A channel whose send always fails, for concrete dispatch scenarios. -/
def failingNotifier : Notifier := fun _ => .error (.GeneralError "boom")

/-- A channel whose send always succeeds. -/
def okNotifier : Notifier := fun _ => .ok ()

/-- A concrete alert used in concrete dispatch scenarios. -/
def sampleAlert : Alert :=
  Alert.mk 0 .Info "S" "sample message" "sample details"

/-- The stopped container of the specification's worked example. -/
def sampleContainer : ContainerStatus :=
  ContainerStatus.mk "abc123" "web" "Exited (1)" false none none

/-- The threshold configuration hard-coded in `main.rs`: CPU 80, memory
90, disk 85. -/
def sampleThreshold : ResourceThreshold :=
  ResourceThreshold.mk (.fin 80) (.fin 90) (.fin 85)

/-- Metrics where CPU (85 over 80), memory (95 percent over 90) and disk
(90 percent over 85) all exceed `sampleThreshold` at once. -/
def hotMetrics : ResourceMetrics := ResourceMetrics.mk (.fin 85) 950 1000 900 1000

/-- The specification's worked example: CPU 85, memory 45 percent, disk
10 percent. -/
def exampleMetrics : ResourceMetrics := ResourceMetrics.mk (.fin 85) 450 1000 100 1000

/-- Metrics where no percentage exceeds `sampleThreshold`. -/
def calmMetrics : ResourceMetrics := ResourceMetrics.mk (.fin 50) 450 1000 100 1000

/-- Metrics whose CPU, memory and disk percentages are exactly 80, 45 and
10. -/
def edgeMetrics : ResourceMetrics := ResourceMetrics.mk (.fin 80) 450 1000 100 1000

/-- Thresholds exactly equal to the percentages of `edgeMetrics`. -/
def edgeThreshold : ResourceThreshold := ResourceThreshold.mk (.fin 80) (.fin 45) (.fin 10)

/-- A running container. -/
def runningContainer : ContainerStatus :=
  ContainerStatus.mk "id1" "db" "Up 3 hours" true none none

/-- Both totals zero, both used counters zero. -/
def zeroTotalsQuiet : ResourceMetrics := ResourceMetrics.mk (.fin 0) 0 0 0 0

/-- Memory total zero with nonzero memory used. -/
def memZeroTotalBusy : ResourceMetrics := ResourceMetrics.mk (.fin 0) 5 0 7 0

/-- Disk total zero with nonzero disk used, memory quiet. -/
def diskZeroTotalBusy : ResourceMetrics := ResourceMetrics.mk (.fin 0) 0 0 7 0

/-- The IEEE strict order of the model is irreflexive, also at the special
values: NaN compares false with itself, and so do the infinities. -/
theorem RFloat.gt_self : ∀ x : RFloat, RFloat.gt x x = false
  | .nan => rfl
  | .inf true => rfl
  | .inf false => rfl
  | .fin a => by simp [RFloat.gt]

/-- The fan-out loop attempts every channel exactly once, in registration
order, whatever the individual send results are. -/
theorem sendIndices_dispatchAux (a : Alert) :
    ∀ (ns : List Notifier) (i : Nat),
      sendIndices (dispatchAux i ns a) = List.range' i ns.length
  | [], _ => rfl
  | n :: rest, i => by
      have ih := sendIndices_dispatchAux a rest (i + 1)
      simp only [dispatchAux, sendIndices, List.filterMap_cons, List.filterMap_append] at ih ⊢
      cases n a with
      | error e => simpa [sendIdx, List.range'] using ih
      | ok u => simpa [sendIdx, List.range'] using ih

/-- If the channel at index `k` fails, the fan-out loop logs the failure
message rendered from the returned error. -/
theorem logError_mem_dispatchAux (a : Alert) (err : NotificationError) :
    ∀ (ns : List Notifier) (i k : Nat) (hk : k < ns.length),
      ns.get ⟨k, hk⟩ a = .error err →
      Event.logError ("Failed to send notification: " ++ err.display) ∈ dispatchAux i ns a
  | [], _, k, hk, _ => absurd hk (by simp)
  | n :: rest, i, 0, hk, h => by
      simp only [List.get] at h
      simp only [dispatchAux, h]
      exact List.mem_cons_of_mem _ (List.mem_append_left _ (List.mem_singleton.mpr rfl))
  | n :: rest, i, k + 1, hk, h => by
      simp only [List.get] at h
      have ih := logError_mem_dispatchAux a err rest (i + 1) k (Nat.lt_of_succ_lt_succ hk) h
      simp only [dispatchAux]
      exact List.mem_cons_of_mem _ (List.mem_append_right _ ih)

/-- Every event emitted by the fan-out loop is a send attempt or an error
log entry. -/
theorem mem_dispatchAux_cases (e : Event) :
    ∀ (ns : List Notifier) (i : Nat) (a : Alert), e ∈ dispatchAux i ns a →
      (∃ j al, e = Event.sendAttempt j al) ∨ ∃ s, e = Event.logError s
  | [], _, _, h => absurd h (List.not_mem_nil e)
  | n :: rest, i, a, h => by
      simp only [dispatchAux, List.mem_cons, List.mem_append] at h
      rcases h with h | h | h
      · exact Or.inl ⟨i, a, h⟩
      · revert h
        cases n a with
        | error er =>
            intro h
            exact Or.inr ⟨_, List.mem_singleton.mp h⟩
        | ok u => intro h; exact absurd h (List.not_mem_nil e)
      · exact mem_dispatchAux_cases e rest (i + 1) a h

/-- NaN is not strictly greater than anything. -/
theorem RFloat.gt_nan_left (x : RFloat) : RFloat.gt .nan x = false := by
  cases x with
  | nan => rfl
  | inf b => cases b <;> rfl
  | fin q => rfl

/-- Positive infinity is strictly greater than every finite value. -/
theorem RFloat.gt_inf_true_fin (q : Rat) : RFloat.gt (.inf true) (.fin q) = true := rfl

/-- With a zero memory total the computed memory percentage is NaN when
`memory_used` is zero (0/0) and positive infinity otherwise (x/0, x > 0):
the code has no division-by-zero guard. -/
theorem memPercent_total_zero (m : ResourceMetrics) (h : m.memory_total = 0) :
    memPercent m = if m.memory_used = 0 then .nan else .inf true := by
  by_cases hu : m.memory_used = 0
  · simp [memPercent, RFloat.ofNat, RFloat.div, RFloat.mul, h, hu]
  · have h1 : ¬ (mkRat (m.memory_used : Int) 1 = 0) := by
      simp [Rat.mkRat_one, Nat.cast_eq_zero]
      exact hu
    have hpos : 0 < m.memory_used := Nat.pos_of_ne_zero hu
    simp [memPercent, RFloat.ofNat, RFloat.div, RFloat.mul, h, hu, h1, hpos,
      (by norm_num : ¬ ((100:Rat) = 0)), (by norm_num : (0:Rat) < 100)]

/-- With a zero disk total the computed disk percentage is NaN when
`disk_used` is zero and positive infinity otherwise. -/
theorem diskPercent_total_zero (m : ResourceMetrics) (h : m.disk_total = 0) :
    diskPercent m = if m.disk_used = 0 then .nan else .inf true := by
  by_cases hu : m.disk_used = 0
  · simp [diskPercent, RFloat.ofNat, RFloat.div, RFloat.mul, h, hu]
  · have h1 : ¬ (mkRat (m.disk_used : Int) 1 = 0) := by
      simp [Rat.mkRat_one, Nat.cast_eq_zero]
      exact hu
    have hpos : 0 < m.disk_used := Nat.pos_of_ne_zero hu
    simp [diskPercent, RFloat.ofNat, RFloat.div, RFloat.mul, h, hu, h1, hpos,
      (by norm_num : ¬ ((100:Rat) = 0)), (by norm_num : (0:Rat) < 100)]

/-- The fan-out loop never emits a resource-evaluation event. -/
theorem resourceEvaluated_not_mem_dispatch (ns : List Notifier) (i : Nat) (a : Alert) :
    Event.resourceEvaluated ∉ dispatchAux i ns a := by
  intro h
  rcases mem_dispatchAux_cases _ ns i a h with ⟨j, al, hj⟩ | ⟨s, hs⟩
  · exact Event.noConfusion hj
  · exact Event.noConfusion hs

/-- The container branch of a tick never emits a resource-evaluation
event. -/
theorem resourceEvaluated_not_mem_containerTrace (ns : List Notifier) (now : Nat)
    (containers : List ContainerStatus) :
    Event.resourceEvaluated ∉ containers.flatMap (fun c =>
      Event.containerEvaluated c.container_id ::
        (match (ContainerAlertRule.mk c).evaluate now with
         | .ok (some alert) => dispatchAlert ns alert
         | _ => [])) := by
  intro h
  rcases List.mem_flatMap.mp h with ⟨c, _, hm⟩
  rcases List.mem_cons.mp hm with h1 | h2
  · exact Event.noConfusion h1
  · revert h2
    split
    · exact fun h2 => resourceEvaluated_not_mem_dispatch ns 0 _ h2
    · exact fun h2 => absurd h2 (List.not_mem_nil _)

/-- Claim C1: for every snapshot and threshold configuration where at
least one resource exceeds its threshold, the resource rule returns
exactly one Warning alert, namely the first exceeded condition in the
fixed order CPU, then memory, then disk, and its details record the
configured threshold. -/
theorem resource_rule_first_exceeded_wins (t : ResourceThreshold) (m : ResourceMetrics)
    (now : Nat)
    (h : RFloat.gt m.cpu_usage t.cpu_threshold = true ∨
         RFloat.gt (memPercent m) t.memory_threshold = true ∨
         RFloat.gt (diskPercent m) t.disk_threshold = true) :
    ∃ a : Alert,
      (ResourceAlertRule.mk t m).evaluate now = .ok (some a) ∧
      a.severity = .Warning ∧
      (if RFloat.gt m.cpu_usage t.cpu_threshold then
         a.source = "CPU" ∧ a.details = "Threshold: " ++ RFloat.format1 t.cpu_threshold ++ "%"
       else if RFloat.gt (memPercent m) t.memory_threshold then
         a.source = "Memory" ∧ a.details = "Threshold: " ++ RFloat.format1 t.memory_threshold ++ "%"
       else
         a.source = "Disk" ∧ a.details = "Threshold: " ++ RFloat.format1 t.disk_threshold ++ "%") := by
  cases hc : RFloat.gt m.cpu_usage t.cpu_threshold with
  | true =>
      refine ⟨Alert.mk now .Warning "CPU"
        ("High CPU usage: " ++ RFloat.format1 m.cpu_usage ++ "%")
        ("Threshold: " ++ RFloat.format1 t.cpu_threshold ++ "%"), ?_, rfl, ?_⟩
      · simp [ResourceAlertRule.evaluate, hc]
      · simp [hc]
  | false =>
      cases hm : RFloat.gt (memPercent m) t.memory_threshold with
      | true =>
          refine ⟨Alert.mk now .Warning "Memory"
            ("High memory usage: " ++ RFloat.format1 (memPercent m) ++ "%")
            ("Threshold: " ++ RFloat.format1 t.memory_threshold ++ "%"), ?_, rfl, ?_⟩
          · simp [ResourceAlertRule.evaluate, hc, hm]
          · simp [hc, hm]
      | false =>
          cases hd : RFloat.gt (diskPercent m) t.disk_threshold with
          | true =>
              refine ⟨Alert.mk now .Warning "Disk"
                ("High disk usage: " ++ RFloat.format1 (diskPercent m) ++ "%")
                ("Threshold: " ++ RFloat.format1 t.disk_threshold ++ "%"), ?_, rfl, ?_⟩
              · simp [ResourceAlertRule.evaluate, hc, hm, hd]
              · simp [hc, hm, hd]
          | false =>
              rcases h with h | h | h <;> simp [hc, hm, hd] at h

/-- Witness for C1 at metrics where all three resources exceed at once:
the CPU condition wins. -/
theorem resource_rule_first_exceeded_wins_witness :
    (RFloat.gt hotMetrics.cpu_usage sampleThreshold.cpu_threshold = true ∨
     RFloat.gt (memPercent hotMetrics) sampleThreshold.memory_threshold = true ∨
     RFloat.gt (diskPercent hotMetrics) sampleThreshold.disk_threshold = true) ∧
    (∃ a : Alert,
      (ResourceAlertRule.mk sampleThreshold hotMetrics).evaluate 0 = .ok (some a) ∧
      a.severity = .Warning ∧
      (if RFloat.gt hotMetrics.cpu_usage sampleThreshold.cpu_threshold then
         a.source = "CPU" ∧
           a.details = "Threshold: " ++ RFloat.format1 sampleThreshold.cpu_threshold ++ "%"
       else if RFloat.gt (memPercent hotMetrics) sampleThreshold.memory_threshold then
         a.source = "Memory" ∧
           a.details = "Threshold: " ++ RFloat.format1 sampleThreshold.memory_threshold ++ "%"
       else
         a.source = "Disk" ∧
           a.details = "Threshold: " ++ RFloat.format1 sampleThreshold.disk_threshold ++ "%")) :=
  ⟨Or.inl (by decide),
   resource_rule_first_exceeded_wins sampleThreshold hotMetrics 0 (Or.inl (by decide))⟩

/-- Claim C2 counterexample: with `memory_total = 0` and a nonzero
`memory_used` the code divides by zero, getting positive infinity, which
exceeds the finite threshold, so the rule does return a Memory alert,
contradicting the claim that with a zero total no Memory alert can arise
from that resource. -/
theorem resource_rule_zero_total_fires_counterexample :
    (ResourceAlertRule.mk sampleThreshold
        (ResourceMetrics.mk (.fin 0) 450 0 100 1000)).evaluate 0 =
      .ok (some (Alert.mk 0 .Warning "Memory" "High memory usage: inf%" "Threshold: 90.0%")) := by
  decide

/-- Claim C2 as amended: the code has no division-by-zero guard.  With a
zero total and zero used the percentage is NaN, every comparison with it
is false, and no alert arises from that resource; with a zero total and
nonzero used the percentage is positive infinity, which exceeds every
finite threshold, and the rule does return an alert for that resource
(subject to the CPU-first, then memory, priority). -/
theorem resource_rule_zero_total_amended (t : ResourceThreshold) (m : ResourceMetrics)
    (now : Nat) :
    (m.memory_total = 0 → m.memory_used = 0 →
      isAlertFrom "Memory" ((ResourceAlertRule.mk t m).evaluate now) = false) ∧
    (m.memory_total = 0 → 0 < m.memory_used → t.memory_threshold.isFinite = true →
      RFloat.gt m.cpu_usage t.cpu_threshold = false →
      isAlertFrom "Memory" ((ResourceAlertRule.mk t m).evaluate now) = true) ∧
    (m.disk_total = 0 → m.disk_used = 0 →
      isAlertFrom "Disk" ((ResourceAlertRule.mk t m).evaluate now) = false) ∧
    (m.disk_total = 0 → 0 < m.disk_used → t.disk_threshold.isFinite = true →
      RFloat.gt m.cpu_usage t.cpu_threshold = false →
      RFloat.gt (memPercent m) t.memory_threshold = false →
      isAlertFrom "Disk" ((ResourceAlertRule.mk t m).evaluate now) = true) := by
  refine ⟨?_, ?_, ?_, ?_⟩
  · intro h hu
    have hm : RFloat.gt (memPercent m) t.memory_threshold = false := by
      rw [memPercent_total_zero m h]
      simp [hu, RFloat.gt_nan_left]
    cases hc : RFloat.gt m.cpu_usage t.cpu_threshold with
    | true => simp [ResourceAlertRule.evaluate, hc, isAlertFrom]
    | false =>
        cases hd : RFloat.gt (diskPercent m) t.disk_threshold with
        | true => simp [ResourceAlertRule.evaluate, hc, hm, hd, isAlertFrom]
        | false => simp [ResourceAlertRule.evaluate, hc, hm, hd, isAlertFrom]
  · intro h hu hfin hc
    have hmem : memPercent m = .inf true := by
      rw [memPercent_total_zero m h]
      simp [Nat.pos_iff_ne_zero.mp hu]
    obtain ⟨q, hq⟩ : ∃ q, t.memory_threshold = .fin q := by
      cases hq : t.memory_threshold with
      | fin q => exact ⟨q, rfl⟩
      | nan => rw [hq] at hfin; exact absurd hfin (by simp [RFloat.isFinite])
      | inf b => rw [hq] at hfin; exact absurd hfin (by simp [RFloat.isFinite])
    have hm : RFloat.gt (memPercent m) t.memory_threshold = true := by
      rw [hmem, hq]; exact RFloat.gt_inf_true_fin q
    simp [ResourceAlertRule.evaluate, hc, hm, isAlertFrom]
  · intro h hu
    have hd : RFloat.gt (diskPercent m) t.disk_threshold = false := by
      rw [diskPercent_total_zero m h]
      simp [hu, RFloat.gt_nan_left]
    cases hc : RFloat.gt m.cpu_usage t.cpu_threshold with
    | true => simp [ResourceAlertRule.evaluate, hc, isAlertFrom]
    | false =>
        cases hm : RFloat.gt (memPercent m) t.memory_threshold with
        | true => simp [ResourceAlertRule.evaluate, hc, hm, isAlertFrom]
        | false => simp [ResourceAlertRule.evaluate, hc, hm, hd, isAlertFrom]
  · intro h hu hfin hc hm
    have hdisk : diskPercent m = .inf true := by
      rw [diskPercent_total_zero m h]
      simp [Nat.pos_iff_ne_zero.mp hu]
    obtain ⟨q, hq⟩ : ∃ q, t.disk_threshold = .fin q := by
      cases hq : t.disk_threshold with
      | fin q => exact ⟨q, rfl⟩
      | nan => rw [hq] at hfin; exact absurd hfin (by simp [RFloat.isFinite])
      | inf b => rw [hq] at hfin; exact absurd hfin (by simp [RFloat.isFinite])
    have hd : RFloat.gt (diskPercent m) t.disk_threshold = true := by
      rw [hdisk, hq]; exact RFloat.gt_inf_true_fin q
    simp [ResourceAlertRule.evaluate, hc, hm, hd, isAlertFrom]

/-- Witness for the amended C2 at concrete zero-total metrics: quiet used
counters give no alert, busy ones do. -/
theorem resource_rule_zero_total_amended_witness :
    isAlertFrom "Memory" ((ResourceAlertRule.mk sampleThreshold zeroTotalsQuiet).evaluate 0) = false ∧
    isAlertFrom "Memory" ((ResourceAlertRule.mk sampleThreshold memZeroTotalBusy).evaluate 0) = true ∧
    isAlertFrom "Disk" ((ResourceAlertRule.mk sampleThreshold zeroTotalsQuiet).evaluate 0) = false ∧
    isAlertFrom "Disk" ((ResourceAlertRule.mk sampleThreshold diskZeroTotalBusy).evaluate 0) = true :=
  ⟨(resource_rule_zero_total_amended sampleThreshold zeroTotalsQuiet 0).1 rfl rfl,
   (resource_rule_zero_total_amended sampleThreshold memZeroTotalBusy 0).2.1 rfl (by decide)
     rfl (by decide),
   (resource_rule_zero_total_amended sampleThreshold zeroTotalsQuiet 0).2.2.1 rfl rfl,
   (resource_rule_zero_total_amended sampleThreshold diskZeroTotalBusy 0).2.2.2 rfl (by decide)
     rfl (by decide) (by decide)⟩

/-- Claim C3: a container with `running = false` yields exactly one
Critical alert with source Container whose details contain the id and the
raw status text; a running container yields no alert; and the worked
example of the specification evaluates exactly as stated. -/
theorem container_rule_liveness (c : ContainerStatus) (now : Nat) :
    (c.running = false →
      ∃ a, (ContainerAlertRule.mk c).evaluate now = .ok (some a) ∧
        a.severity = .Critical ∧ a.source = "Container" ∧
        (∃ p q, a.details = p ++ c.container_id ++ q) ∧
        (∃ p q, a.details = p ++ c.status ++ q)) ∧
    (c.running = true → (ContainerAlertRule.mk c).evaluate now = .ok none) ∧
    (ContainerAlertRule.mk sampleContainer).evaluate now =
      .ok (some (Alert.mk now .Critical "Container" "Container web is not running"
        "Container ID: abc123, Status: Exited (1)")) := by
  refine ⟨?_, ?_, ?_⟩
  · intro h
    refine ⟨Alert.mk now .Critical "Container" ("Container " ++ c.name ++ " is not running")
      ("Container ID: " ++ c.container_id ++ ", Status: " ++ c.status), ?_, rfl, rfl, ?_, ?_⟩
    · simp [ContainerAlertRule.evaluate, h]
    · exact ⟨"Container ID: ", ", Status: " ++ c.status, by simp [String.append_assoc]⟩
    · exact ⟨"Container ID: " ++ c.container_id ++ ", Status: ", "",
        by simp [String.append_assoc, String.append_empty]⟩
  · intro h
    simp [ContainerAlertRule.evaluate, h]
  · rfl

/-- Witness for C3 at the stopped example container and at a running
one. -/
theorem container_rule_liveness_witness :
    (∃ a, (ContainerAlertRule.mk sampleContainer).evaluate 5 = .ok (some a) ∧
      a.severity = .Critical ∧ a.source = "Container" ∧
      (∃ p q, a.details = p ++ sampleContainer.container_id ++ q) ∧
      (∃ p q, a.details = p ++ sampleContainer.status ++ q)) ∧
    (ContainerAlertRule.mk runningContainer).evaluate 5 = .ok none :=
  ⟨(container_rule_liveness sampleContainer 5).1 rfl,
   (container_rule_liveness runningContainer 5).2.1 rfl⟩

/-- Claim C4: when one alert is dispatched to the registered channels and
channel `k` fails while the others succeed, every channel is still
invoked exactly once, in registration order, the failure is logged with
the rendered error, and the dispatch neither raises nor prevents
evaluation of the containers of the same tick. -/
theorem dispatch_channel_isolation (notifiers : List Notifier) (alert : Alert) (k : Nat)
    (hk : k < notifiers.length) (err : NotificationError)
    (hfail : notifiers.get ⟨k, hk⟩ alert = .error err)
    (hok : ∀ j (hj : j < notifiers.length), j ≠ k → notifiers.get ⟨j, hj⟩ alert = .ok ())
    (t : ResourceThreshold) (mres : Except ResourceError ResourceMetrics)
    (containers : List ContainerStatus) (now : Nat) (c : ContainerStatus)
    (hc : c ∈ containers) :
    sendIndices (dispatchAlert notifiers alert) = List.range notifiers.length ∧
    Event.logError ("Failed to send notification: " ++ err.display) ∈
      dispatchAlert notifiers alert ∧
    Event.containerEvaluated c.container_id ∈
      evalTick t notifiers mres (.ok containers) now := by
  refine ⟨?_, ?_, ?_⟩
  · rw [dispatchAlert, sendIndices_dispatchAux, List.range_eq_range']
  · exact logError_mem_dispatchAux alert err notifiers 0 k hk hfail
  · simp only [evalTick]
    apply List.mem_cons_of_mem
    apply List.mem_append_right
    apply List.mem_cons_of_mem
    exact List.mem_flatMap.mpr ⟨c, hc, List.mem_cons_self _ _⟩

/-- Witness for C4 with two registered channels of which the first
fails. -/
theorem dispatch_channel_isolation_witness :
    sendIndices (dispatchAlert [failingNotifier, okNotifier] sampleAlert) = List.range 2 ∧
    Event.logError ("Failed to send notification: " ++
      (NotificationError.GeneralError "boom").display) ∈
      dispatchAlert [failingNotifier, okNotifier] sampleAlert ∧
    Event.containerEvaluated sampleContainer.container_id ∈
      evalTick sampleThreshold [failingNotifier, okNotifier] (.ok exampleMetrics)
        (.ok [sampleContainer]) 0 :=
  dispatch_channel_isolation [failingNotifier, okNotifier] sampleAlert 0 (by decide)
    (.GeneralError "boom") rfl
    (fun j hj hne => by
      match j with
      | 0 => exact absurd rfl hne
      | 1 => rfl
      | n + 2 =>
          exact absurd hj (by simp only [List.length_cons, List.length_nil]; omega))
    sampleThreshold (.ok exampleMetrics) [sampleContainer] 0 sampleContainer
    (List.mem_cons_self _ _)

/-- Claim C5: in a tick where metrics collection fails, the resource
branch is skipped (no resource evaluation event occurs) while the
container branch still runs: the container list is polled and the
liveness rule is evaluated for every container; the tick function is
total, so the failure causes no crash. -/
theorem tick_stage_isolation (t : ResourceThreshold) (notifiers : List Notifier)
    (e : ResourceError) (containers : List ContainerStatus) (now : Nat)
    (c : ContainerStatus) (hc : c ∈ containers) :
    Event.resourceEvaluated ∉ evalTick t notifiers (.error e) (.ok containers) now ∧
    Event.containersPolled ∈ evalTick t notifiers (.error e) (.ok containers) now ∧
    Event.containerEvaluated c.container_id ∈
      evalTick t notifiers (.error e) (.ok containers) now := by
  refine ⟨?_, ?_, ?_⟩
  · intro h
    simp only [evalTick, List.nil_append] at h
    rcases List.mem_cons.mp h with h1 | h
    · exact Event.noConfusion h1
    rcases List.mem_cons.mp h with h1 | h
    · exact Event.noConfusion h1
    exact resourceEvaluated_not_mem_containerTrace notifiers now containers h
  · simp only [evalTick, List.nil_append]
    exact List.mem_cons_of_mem _ (List.mem_cons_self _ _)
  · simp only [evalTick, List.nil_append]
    exact List.mem_cons_of_mem _ (List.mem_cons_of_mem _
      (List.mem_flatMap.mpr ⟨c, hc, List.mem_cons_self _ _⟩))

/-- Witness for C5: a tick with a failed metrics sample and one stopped
container. -/
theorem tick_stage_isolation_witness :
    Event.resourceEvaluated ∉
      evalTick sampleThreshold [okNotifier] (.error (.MetricsCollectionError "down"))
        (.ok [sampleContainer]) 0 ∧
    Event.containersPolled ∈
      evalTick sampleThreshold [okNotifier] (.error (.MetricsCollectionError "down"))
        (.ok [sampleContainer]) 0 ∧
    Event.containerEvaluated sampleContainer.container_id ∈
      evalTick sampleThreshold [okNotifier] (.error (.MetricsCollectionError "down"))
        (.ok [sampleContainer]) 0 :=
  tick_stage_isolation sampleThreshold [okNotifier] (.MetricsCollectionError "down")
    [sampleContainer] 0 sampleContainer (List.mem_cons_self _ _)

/-- Claim C6: when none of the three computed percentages exceed their
configured thresholds the resource rule returns `Ok(None)`. -/
theorem resource_rule_no_exceed_no_alert (t : ResourceThreshold) (m : ResourceMetrics)
    (now : Nat)
    (h1 : RFloat.gt m.cpu_usage t.cpu_threshold = false)
    (h2 : RFloat.gt (memPercent m) t.memory_threshold = false)
    (h3 : RFloat.gt (diskPercent m) t.disk_threshold = false) :
    (ResourceAlertRule.mk t m).evaluate now = .ok none := by
  simp [ResourceAlertRule.evaluate, h1, h2, h3]

/-- Witness for C6 at metrics where nothing exceeds the sample
thresholds. -/
theorem resource_rule_no_exceed_no_alert_witness :
    RFloat.gt calmMetrics.cpu_usage sampleThreshold.cpu_threshold = false ∧
    RFloat.gt (memPercent calmMetrics) sampleThreshold.memory_threshold = false ∧
    RFloat.gt (diskPercent calmMetrics) sampleThreshold.disk_threshold = false ∧
    (ResourceAlertRule.mk sampleThreshold calmMetrics).evaluate 0 = .ok none :=
  ⟨by decide, by decide, by decide,
   resource_rule_no_exceed_no_alert sampleThreshold calmMetrics 0
     (by decide) (by decide) (by decide)⟩

/-- Claim C7: whenever CPU exceeds its threshold the rule returns exactly
one Warning alert with source CPU and the formatted usage in its message;
at the specification's worked example the alert is exactly the stated
one, with "85.0%" occurring in the message. -/
theorem resource_rule_cpu_alert_example (t : ResourceThreshold) (m : ResourceMetrics)
    (now : Nat) (h : RFloat.gt m.cpu_usage t.cpu_threshold = true) :
    (∃ a, (ResourceAlertRule.mk t m).evaluate now = .ok (some a) ∧
      a.severity = .Warning ∧ a.source = "CPU" ∧
      a.message = "High CPU usage: " ++ RFloat.format1 m.cpu_usage ++ "%") ∧
    (ResourceAlertRule.mk sampleThreshold exampleMetrics).evaluate now =
      .ok (some (Alert.mk now .Warning "CPU" "High CPU usage: 85.0%" "Threshold: 80.0%")) ∧
    (∃ p q, ("High CPU usage: 85.0%" : String) = p ++ "85.0%" ++ q) := by
  refine ⟨?_, rfl, ⟨"High CPU usage: ", "", by rfl⟩⟩
  refine ⟨Alert.mk now .Warning "CPU"
    ("High CPU usage: " ++ RFloat.format1 m.cpu_usage ++ "%")
    ("Threshold: " ++ RFloat.format1 t.cpu_threshold ++ "%"), ?_, rfl, rfl, rfl⟩
  simp [ResourceAlertRule.evaluate, h]

/-- Witness for C7 at the worked example itself. -/
theorem resource_rule_cpu_alert_example_witness :
    RFloat.gt exampleMetrics.cpu_usage sampleThreshold.cpu_threshold = true ∧
    ((∃ a, (ResourceAlertRule.mk sampleThreshold exampleMetrics).evaluate 3 = .ok (some a) ∧
      a.severity = .Warning ∧ a.source = "CPU" ∧
      a.message = "High CPU usage: " ++ RFloat.format1 exampleMetrics.cpu_usage ++ "%") ∧
    (ResourceAlertRule.mk sampleThreshold exampleMetrics).evaluate 3 =
      .ok (some (Alert.mk 3 .Warning "CPU" "High CPU usage: 85.0%" "Threshold: 80.0%")) ∧
    (∃ p q, ("High CPU usage: 85.0%" : String) = p ++ "85.0%" ++ q)) :=
  ⟨by decide,
   resource_rule_cpu_alert_example sampleThreshold exampleMetrics 3 (by decide)⟩

/-- Claim C8: rule evaluation is deterministic up to the clock: the same
snapshot evaluated at two clock instants yields results identical after
erasing the timestamp, for both rule variants. -/
theorem rules_deterministic_up_to_clock (t : ResourceThreshold) (m : ResourceMetrics)
    (c : ContainerStatus) (n1 n2 : Nat) :
    ((ResourceAlertRule.mk t m).evaluate n1).map (Option.map stripTs) =
      ((ResourceAlertRule.mk t m).evaluate n2).map (Option.map stripTs) ∧
    ((ContainerAlertRule.mk c).evaluate n1).map (Option.map stripTs) =
      ((ContainerAlertRule.mk c).evaluate n2).map (Option.map stripTs) := by
  constructor
  · simp only [ResourceAlertRule.evaluate]
    split_ifs <;> simp [Except.map, Option.map, stripTs]
  · simp only [ContainerAlertRule.evaluate]
    split_ifs <;> simp [Except.map, Option.map, stripTs]

/-- Claim C9: threshold comparisons are strict: a percentage exactly
equal to its configured threshold produces no alert for that resource. -/
theorem resource_rule_strict_comparisons (t : ResourceThreshold) (m : ResourceMetrics)
    (now : Nat) :
    (m.cpu_usage = t.cpu_threshold →
      isAlertFrom "CPU" ((ResourceAlertRule.mk t m).evaluate now) = false) ∧
    (memPercent m = t.memory_threshold →
      isAlertFrom "Memory" ((ResourceAlertRule.mk t m).evaluate now) = false) ∧
    (diskPercent m = t.disk_threshold →
      isAlertFrom "Disk" ((ResourceAlertRule.mk t m).evaluate now) = false) := by
  refine ⟨?_, ?_, ?_⟩
  · intro h
    have hc : RFloat.gt m.cpu_usage t.cpu_threshold = false := by
      rw [h]; exact RFloat.gt_self _
    cases hm : RFloat.gt (memPercent m) t.memory_threshold with
    | true => simp [ResourceAlertRule.evaluate, hc, hm, isAlertFrom]
    | false =>
        cases hd : RFloat.gt (diskPercent m) t.disk_threshold with
        | true => simp [ResourceAlertRule.evaluate, hc, hm, hd, isAlertFrom]
        | false => simp [ResourceAlertRule.evaluate, hc, hm, hd, isAlertFrom]
  · intro h
    have hm : RFloat.gt (memPercent m) t.memory_threshold = false := by
      rw [h]; exact RFloat.gt_self _
    cases hc : RFloat.gt m.cpu_usage t.cpu_threshold with
    | true => simp [ResourceAlertRule.evaluate, hc, isAlertFrom]
    | false =>
        cases hd : RFloat.gt (diskPercent m) t.disk_threshold with
        | true => simp [ResourceAlertRule.evaluate, hc, hm, hd, isAlertFrom]
        | false => simp [ResourceAlertRule.evaluate, hc, hm, hd, isAlertFrom]
  · intro h
    have hd : RFloat.gt (diskPercent m) t.disk_threshold = false := by
      rw [h]; exact RFloat.gt_self _
    cases hc : RFloat.gt m.cpu_usage t.cpu_threshold with
    | true => simp [ResourceAlertRule.evaluate, hc, isAlertFrom]
    | false =>
        cases hm : RFloat.gt (memPercent m) t.memory_threshold with
        | true => simp [ResourceAlertRule.evaluate, hc, hm, isAlertFrom]
        | false => simp [ResourceAlertRule.evaluate, hc, hm, hd, isAlertFrom]

/-- Witness for C9 at thresholds exactly equal to all three percentages
of the edge metrics. -/
theorem resource_rule_strict_comparisons_witness :
    edgeMetrics.cpu_usage = edgeThreshold.cpu_threshold ∧
    memPercent edgeMetrics = edgeThreshold.memory_threshold ∧
    diskPercent edgeMetrics = edgeThreshold.disk_threshold ∧
    isAlertFrom "CPU" ((ResourceAlertRule.mk edgeThreshold edgeMetrics).evaluate 0) = false ∧
    isAlertFrom "Memory" ((ResourceAlertRule.mk edgeThreshold edgeMetrics).evaluate 0) = false ∧
    isAlertFrom "Disk" ((ResourceAlertRule.mk edgeThreshold edgeMetrics).evaluate 0) = false :=
  ⟨rfl, by decide, by decide,
   (resource_rule_strict_comparisons edgeThreshold edgeMetrics 0).1 rfl,
   (resource_rule_strict_comparisons edgeThreshold edgeMetrics 0).2.1 (by decide),
   (resource_rule_strict_comparisons edgeThreshold edgeMetrics 0).2.2 (by decide)⟩

/-- Claim C10: both rule variants are total over the success channel:
every evaluation returns `Ok`; the error branch of the result type is
never produced. -/
theorem rules_total_ok (t : ResourceThreshold) (m : ResourceMetrics) (c : ContainerStatus)
    (now : Nat) :
    (∃ o, (ResourceAlertRule.mk t m).evaluate now = .ok o) ∧
    (∃ o, (ContainerAlertRule.mk c).evaluate now = .ok o) := by
  constructor
  · simp only [ResourceAlertRule.evaluate]
    split_ifs <;> exact ⟨_, rfl⟩
  · simp only [ContainerAlertRule.evaluate]
    split_ifs <;> exact ⟨_, rfl⟩
